import Mathlib

set_option maxRecDepth 100000

/-!
Verification of the image acquisition and classification pipeline of
`main.py` (web-image-scraper).

The Python source is shallowly embedded as follows.

* Bytes are `List Nat` (each element < 256 for real data; the embedding is
  total either way).
* `hashlib.md5(url.encode("utf-8")).hexdigest()` is embedded as a full MD5
  implementation over `Nat` arithmetic (mod 2^32) together with a UTF-8
  encoder, so `md5_hash` is executable and bit-faithful.
* Calls into external libraries (`requests`, `xml.etree.ElementTree`,
  `pyjxl`, `PIL.Image`) are modelled by oracle values carried with each
  candidate: the oracle records the outcome the library call would produce
  on the candidate's body (success with a value, or a raised exception).
* Side effects (file writes and `print` lines) are an event list; the
  output directory is an association list of path to file data with
  overwrite-on-existing-key semantics.
* Python `float` attribute values on the SVG path are embedded as `ℚ`.
  The embedded `float(...)` parser accepts finite decimal literals with
  optional sign, point and exponent; non-finite literals ("inf", "nan")
  and underscore digit grouping fall outside the rational model and are
  treated as conversion failures (no claim exercises them).
-/

/-! ## Bit-level helpers (Nat arithmetic mod 2^32) -/

def M32 : Nat := 2 ^ 32

def not32 (x : Nat) : Nat := x ^^^ (M32 - 1)

def rotl32 (x n : Nat) : Nat := ((x <<< n) % M32) ||| (x >>> (32 - n))

/-- Little-endian bytes of a 32-bit word. -/
def le32 (n : Nat) : List Nat := (List.range 4).map fun i => (n >>> (8 * i)) &&& 0xFF

/-- Little-endian bytes of a 64-bit word. -/
def le64 (n : Nat) : List Nat := (List.range 8).map fun i => (n >>> (8 * i)) &&& 0xFF

/-! ## UTF-8 encoding (model of Python str.encode("utf-8")) -/

def utf8Char (c : Char) : List Nat :=
  let n := c.toNat
  if n < 0x80 then [n]
  else if n < 0x800 then [0xC0 ||| (n >>> 6), 0x80 ||| (n &&& 0x3F)]
  else if n < 0x10000 then
    [0xE0 ||| (n >>> 12), 0x80 ||| ((n >>> 6) &&& 0x3F), 0x80 ||| (n &&& 0x3F)]
  else
    [0xF0 ||| (n >>> 18), 0x80 ||| ((n >>> 12) &&& 0x3F),
     0x80 ||| ((n >>> 6) &&& 0x3F), 0x80 ||| (n &&& 0x3F)]

def utf8Encode (s : String) : List Nat := s.data.flatMap utf8Char

/-! ## MD5 (RFC 1321), the implementation behind `hashlib.md5` -/

def md5K : List Nat :=
  [0xd76aa478, 0xe8c7b756, 0x242070db, 0xc1bdceee,
   0xf57c0faf, 0x4787c62a, 0xa8304613, 0xfd469501,
   0x698098d8, 0x8b44f7af, 0xffff5bb1, 0x895cd7be,
   0x6b901122, 0xfd987193, 0xa679438e, 0x49b40821,
   0xf61e2562, 0xc040b340, 0x265e5a51, 0xe9b6c7aa,
   0xd62f105d, 0x02441453, 0xd8a1e681, 0xe7d3fbc8,
   0x21e1cde6, 0xc33707d6, 0xf4d50d87, 0x455a14ed,
   0xa9e3e905, 0xfcefa3f8, 0x676f02d9, 0x8d2a4c8a,
   0xfffa3942, 0x8771f681, 0x6d9d6122, 0xfde5380c,
   0xa4beea44, 0x4bdecfa9, 0xf6bb4b60, 0xbebfbc70,
   0x289b7ec6, 0xeaa127fa, 0xd4ef3085, 0x04881d05,
   0xd9d4d039, 0xe6db99e5, 0x1fa27cf8, 0xc4ac5665,
   0xf4292244, 0x432aff97, 0xab9423a7, 0xfc93a039,
   0x655b59c3, 0x8f0ccc92, 0xffeff47d, 0x85845dd1,
   0x6fa87e4f, 0xfe2ce6e0, 0xa3014314, 0x4e0811a1,
   0xf7537e82, 0xbd3af235, 0x2ad7d2bb, 0xeb86d391]

def md5S : List Nat :=
  [7, 12, 17, 22, 7, 12, 17, 22, 7, 12, 17, 22, 7, 12, 17, 22,
   5, 9, 14, 20, 5, 9, 14, 20, 5, 9, 14, 20, 5, 9, 14, 20,
   4, 11, 16, 23, 4, 11, 16, 23, 4, 11, 16, 23, 4, 11, 16, 23,
   6, 10, 15, 21, 6, 10, 15, 21, 6, 10, 15, 21, 6, 10, 15, 21]

structure MD5State where
  a : Nat
  b : Nat
  c : Nat
  d : Nat

/-- One of the 64 MD5 rounds on a 16-word chunk. -/
def md5Round (w : List Nat) (st : MD5State) (i : Nat) : MD5State :=
  let fg : Nat × Nat :=
    if i < 16 then ((st.b &&& st.c) ||| (not32 st.b &&& st.d), i)
    else if i < 32 then ((st.d &&& st.b) ||| (not32 st.d &&& st.c), (5 * i + 1) % 16)
    else if i < 48 then (st.b ^^^ st.c ^^^ st.d, (3 * i + 5) % 16)
    else (st.c ^^^ (st.b ||| not32 st.d), (7 * i) % 16)
  let f := (fg.1 + st.a + md5K.getD i 0 + w.getD fg.2 0) % M32
  ⟨st.d, (st.b + rotl32 f (md5S.getD i 0)) % M32, st.b, st.c⟩

/-- The 16 little-endian 32-bit words of a 64-byte chunk. -/
def md5Words (chunk : List Nat) : List Nat :=
  (List.range 16).map fun j =>
    chunk.getD (4 * j) 0 + (chunk.getD (4 * j + 1) 0 <<< 8) +
      (chunk.getD (4 * j + 2) 0 <<< 16) + (chunk.getD (4 * j + 3) 0 <<< 24)

def md5Chunk (st : MD5State) (chunk : List Nat) : MD5State :=
  let r := (List.range 64).foldl (md5Round (md5Words chunk)) st
  ⟨(st.a + r.a) % M32, (st.b + r.b) % M32, (st.c + r.c) % M32, (st.d + r.d) % M32⟩

/-- MD5 padding: a 0x80 byte, zeros to 56 mod 64, then the bit length as
a 64-bit little-endian word. -/
def md5Pad (msg : List Nat) : List Nat :=
  let z := (119 - msg.length % 64) % 64
  msg ++ 0x80 :: (List.replicate z 0 ++ le64 ((8 * msg.length) % 2 ^ 64))

/-- Split a byte list into 64-byte chunks (fuel-driven, total). -/
def chunksAux : Nat → List Nat → List (List Nat)
  | 0, _ => []
  | _, [] => []
  | fuel + 1, l => l.take 64 :: chunksAux fuel (l.drop 64)

def chunks64 (l : List Nat) : List (List Nat) := chunksAux l.length l

def md5Init : MD5State := ⟨0x67452301, 0xefcdab89, 0x98badcfe, 0x10325476⟩

/-- The 16 digest bytes of a byte message. -/
def md5Bytes (msg : List Nat) : List Nat :=
  let r := (chunks64 (md5Pad msg)).foldl md5Chunk md5Init
  le32 r.a ++ le32 r.b ++ le32 r.c ++ le32 r.d

def hexDigit (n : Nat) : Char := "0123456789abcdef".data.getD n '0'

def toHex (bytes : List Nat) : String :=
  ⟨bytes.flatMap fun b => [hexDigit (b / 16), hexDigit (b % 16)]⟩

/-- Embedding of `md5_hash` (main.py line 32):
`hashlib.md5(url.encode("utf-8")).hexdigest()`. -/
def md5_hash (url : String) : String := toHex (md5Bytes (utf8Encode url))

/-- Known-answer check: MD5 of the empty message (RFC 1321 test suite). -/
theorem md5_known_answer_empty : md5_hash "" = "d41d8cd98f00b204e9800998ecf8427e" := by
  decide

/-- Known-answer check: MD5 of "abc" (RFC 1321 test suite). -/
theorem md5_known_answer_abc : md5_hash "abc" = "900150983cd24fb0d6963f7d28e17f72" := by
  decide

/-! ## Python string operations used by get_svg_size -/

/-- If `pat` is a prefix of `l`, return the remainder after it. -/
def stripPat : List Char → List Char → Option (List Char)
  | [], l => some l
  | _ :: _, [] => none
  | p :: ps, c :: cs => if p = c then stripPat ps cs else none

/-- Replace every (non-overlapping, left-to-right) occurrence of the
nonempty pattern `p :: ps` by `repl`: the semantics of Python
`str.replace` for a nonempty pattern. Structural recursion on a fuel
bound so the kernel can evaluate it; fuel at least the list length is
always enough, since each step consumes at least one element. -/
def replaceAllAux (p : Char) (ps repl : List Char) : Nat → List Char → List Char
  | 0, l => l
  | _ + 1, [] => []
  | fuel + 1, c :: cs =>
    match stripPat (p :: ps) (c :: cs) with
    | some rest => repl ++ replaceAllAux p ps repl fuel rest
    | none => c :: replaceAllAux p ps repl fuel cs

def replaceAll (p : Char) (ps repl l : List Char) : List Char :=
  replaceAllAux p ps repl l.length l

/-- Python `s.replace(pat, repl)` (total: an empty pattern leaves `s`
unchanged; the call sites only use nonempty patterns). -/
def pyReplace (s pat repl : String) : String :=
  match pat.data with
  | [] => s
  | p :: ps => ⟨replaceAll p ps repl.data s.data⟩

/-- ASCII whitespace, the characters Python `str.strip()` removes on the
attribute strings that occur here. -/
def isPySpace (c : Char) : Bool :=
  c = ' ' ∨ c = '\t' ∨ c = '\n' ∨ c = '\r' ∨ c = '\x0b' ∨ c = '\x0c'

/-- Python `s.strip()`. -/
def pyStrip (s : String) : String :=
  ⟨((s.data.dropWhile isPySpace).reverse.dropWhile isPySpace).reverse⟩

/-- Python truthiness of a string: the empty string is falsy, so
`s or "0"` is `"0"` exactly when `s` is empty. -/
def pyOrZero (s : String) : String := if s = "" then "0" else s

/-! ## Model of Python float(...) on finite decimal literals -/

def natOfDigits (cs : List Char) : Nat :=
  cs.foldl (fun a c => a * 10 + (c.toNat - 48)) 0

/-- Split at the first character satisfying `p`; the second component is
`none` when no such character occurs. -/
def breakAt (p : Char → Bool) : List Char → List Char × Option (List Char)
  | [] => ([], none)
  | c :: r =>
    if p c then ([], some r)
    else
      let x := breakAt p r
      (c :: x.1, x.2)

/-- Strip one optional leading sign, returning the sign as an integer. -/
def takeSign : List Char → Int × List Char
  | '+' :: r => (1, r)
  | '-' :: r => (-1, r)
  | r => (1, r)

/-- Model of Python `float(s)` for finite decimal literals
`[sign] (digits [. digits] | . digits) [(e|E) [sign] digits]`, as the
exact rational value (built with `mkRat`, so the whole parser evaluates
by kernel reduction). `none` models a raised `ValueError`. Non-finite
literals ("inf", "nan") and underscore grouping are outside the rational
model and also map to `none`; no SVG attribute in any claim uses them. -/
def pyFloat (s : String) : Option ℚ :=
  let sm := takeSign s.data
  let me := breakAt (fun c => c = 'e' ∨ c = 'E') sm.2
  let ifr := breakAt (fun c => c = '.') me.1
  let ip := ifr.1
  let fp := (ifr.2).getD []
  if ip.all Char.isDigit ∧ fp.all Char.isDigit ∧ (ip ++ fp) ≠ [] then
    let num : Int := sm.1 * natOfDigits (ip ++ fp)
    let den : Nat := 10 ^ fp.length
    match me.2 with
    | none => some (mkRat num den)
    | some ex =>
      let es := takeSign ex
      if es.2.all Char.isDigit ∧ es.2 ≠ [] then
        some (if es.1 = -1 then mkRat num (den * 10 ^ natOfDigits es.2)
          else mkRat (num * ((10 ^ natOfDigits es.2 : Nat) : Int)) den)
      else none
  else none

/-- Sanity checks of the float model against CPython behaviour. -/
theorem pyFloat_checks :
    pyFloat "300" = some 300 ∧ pyFloat "-300" = some (-300) ∧
      pyFloat "1.5" = some (mkRat 3 2) ∧ pyFloat ".5" = some (mkRat 1 2) ∧
      pyFloat "1." = some 1 ∧ pyFloat "2e2" = some 200 ∧
      pyFloat "1E-2" = some (mkRat 1 100) ∧ pyFloat "" = none ∧
      pyFloat "." = none ∧ pyFloat "10r" = none ∧ pyFloat "-0" = some 0 := by
  decide

/-! ## Observable effects

File writes and `print` lines are recorded as an event list. Metadata
sidecars are recorded structurally (`json.dump` of the metadata dict is a
deterministic function of these fields; its concrete text rendering is not
modelled). Log payloads keep the leading text of the corresponding
`print`; the interpolated size formatting is not modelled. -/

inductive FileData
  | bytes (b : List Nat)
  | meta (url : String) (fmt : String) (width height : ℚ)
deriving DecidableEq

inductive Event
  | write (path : String) (data : FileData)
  | log (line : String)
deriving DecidableEq

/-- Model of `os.path.join(folder, name)` for a folder spelled without a
trailing separator. -/
def osJoin (folder name : String) : String := folder ++ "/" ++ name

/-- Whether `needle` occurs as a contiguous sublist of `l`. -/
def listInfix (needle : List Char) : List Char → Bool
  | [] => needle.isEmpty
  | c :: cs => (stripPat needle (c :: cs)).isSome || listInfix needle cs

/-- Python `needle in hay` on strings. -/
def strContains (hay needle : String) : Bool := listInfix needle.data hay.data

/-! ## The SVG classifier (get_svg_size, main.py lines 44 to 61) -/

/-- Outcome of `ET.fromstring(content)` on the response body: the root
element's attribute dict, or a raised parse error. -/
inductive SvgParse
  | root (attrib : List (String × String))
  | error (msg : String)
deriving DecidableEq

/-- Embedding of `get_svg_size` (main.py lines 44 to 61). Returns the
`(width, height)` pair together with the log lines it prints. A parse or
float-conversion failure is caught and yields `(0, 0)`; a result where
either converted value is falsy (zero) is replaced by `(0, 0)`. -/
def get_svg_size (parsed : SvgParse) : (ℚ × ℚ) × List Event :=
  match parsed with
  | .error msg => ((0, 0), [Event.log ("Error getting SVG size: " ++ msg)])
  | .root attrib =>
    let wRaw := (attrib.lookup "width").getD "0"
    let hRaw := (attrib.lookup "height").getD "0"
    let wStr := pyOrZero (pyStrip (pyReplace (pyReplace (pyReplace wRaw "px" "") "em" "") "%" ""))
    let hStr := pyOrZero (pyStrip (pyReplace (pyReplace (pyReplace hRaw "px" "") "em" "") "%" ""))
    match pyFloat wStr, pyFloat hStr with
    | none, _ =>
      ((0, 0), [Event.log ("Error getting SVG size: could not convert string to float: " ++ wStr)])
    | some _, none =>
      ((0, 0), [Event.log ("Error getting SVG size: could not convert string to float: " ++ hStr)])
    | some w, some h => (if w ≠ 0 ∧ h ≠ 0 then (w, h) else (0, 0), [])

/-! ## The three handlers (main.py lines 65 to 147) -/

/-- Embedding of `handle_svg` (main.py lines 65 to 87): classify via
`get_svg_size`, filter by `width * height >= min_area`, then write the
SVG bytes and the metadata sidecar. The outer `except` only guards the
file writes, which the model treats as succeeding. -/
def handle_svg (url : String) (response_content : List Nat) (parsed : SvgParse)
    (folder : String) (min_area : Int) : List Event :=
  let r := get_svg_size parsed
  let width := r.1.1
  let height := r.1.2
  r.2 ++
    (if width * height ≥ (min_area : ℚ) then
      let img_hash := md5_hash url
      let filename := osJoin folder (img_hash ++ ".svg")
      let metadata_filename := osJoin folder (img_hash ++ ".json")
      [Event.write filename (.bytes response_content),
       Event.log ("Downloaded: " ++ filename),
       Event.write metadata_filename (.meta url "SVG" width height),
       Event.log ("Metadata saved: " ++ metadata_filename)]
    else
      [Event.log ("Skipped (too small): " ++ url)])

/-- Outcome of `pyjxl.decode(BytesIO(response_content))`. -/
inductive JxlDecode
  | ok (width height : Nat)
  | error (msg : String)
deriving DecidableEq

/-- Embedding of `handle_jpeg_xl` (main.py lines 91 to 114): the image
bytes are written to `<hash>.jxl` BEFORE the decode step; the metadata
sidecar is written only after a successful decode; a decode failure is
caught and logged. No `min_area` parameter exists on this path. -/
def handle_jpeg_xl (url : String) (response_content : List Nat) (decoded : JxlDecode)
    (folder : String) : List Event :=
  let img_hash := md5_hash url
  let filename := osJoin folder (img_hash ++ ".jxl")
  Event.write filename (.bytes response_content) ::
    (match decoded with
    | .ok width height =>
      let metadata_filename := osJoin folder (img_hash ++ ".json")
      [Event.log ("Downloaded: " ++ filename),
       Event.write metadata_filename (.meta url "JPEG XL" width height),
       Event.log ("Metadata saved: " ++ metadata_filename)]
    | .error msg =>
      [Event.log ("Error handling JPEG XL image " ++ url ++ ": " ++ msg)])

/-- Outcome of `Image.open(BytesIO(response_content))` plus reading
`img.size` and `img.format`. -/
inductive PilOpen
  | ok (fmt : String) (width height : Nat)
  | unidentified
  | error (msg : String)
deriving DecidableEq

/-- Embedding of `handle_generic_image` (main.py lines 118 to 147):
classify via PIL, filter by `width * height >= min_area`, write bytes
under the decoder-reported format (lowercased) and the metadata sidecar;
`UnidentifiedImageError` and other exceptions are caught and logged. -/
def handle_generic_image (url : String) (response_content : List Nat) (opened : PilOpen)
    (folder : String) (min_area : Int) : List Event :=
  match opened with
  | .ok fmt width height =>
    if (width * height : Int) ≥ min_area then
      let img_hash := md5_hash url
      let filename := osJoin folder (img_hash ++ "." ++ fmt.toLower)
      let metadata_filename := osJoin folder (img_hash ++ ".json")
      [Event.write filename (.bytes response_content),
       Event.log ("Downloaded: " ++ filename),
       Event.write metadata_filename (.meta url fmt width height),
       Event.log ("Metadata saved: " ++ metadata_filename)]
    else [Event.log ("Skipped (too small): " ++ url)]
  | .unidentified => [Event.log ("Image format not recognized for " ++ url)]
  | .error msg => [Event.log ("Error handling image " ++ url ++ ": " ++ msg)]

/-! ## Dispatcher and driver (main.py lines 151 to 233) -/

/-- An HTTP response as the code reads it: status code, the
`Content-Type` header with `""` for an absent header, and the body. -/
structure Response where
  statusCode : Nat
  contentType : String
  body : List Nat
deriving DecidableEq

/-- Per-URL oracle for the external collaborators: the outcomes of
`requests.head`, `requests.get` (`.error` models a raised exception) and
of the three library decoders applied to the fetched body. -/
structure UrlOracle where
  head : Except String Response
  get : Except String Response
  svg : SvgParse
  jxl : JxlDecode
  pil : PilOpen

/-- Embedding of `download_image` (main.py lines 151 to 166): one GET,
then routing on the declared content type: `image/svg+xml` first,
`image/jxl` second, generic raster otherwise. All errors are caught and
become a single log line. -/
def download_image (url : String) (o : UrlOracle) (folder : String) (min_area : Int) :
    List Event :=
  match o.get with
  | .error e => [Event.log ("Error downloading " ++ url ++ ": " ++ e)]
  | .ok response =>
    if response.statusCode == 200 then
      let content_type := response.contentType
      if strContains content_type "image/svg+xml" then
        handle_svg url response.body o.svg folder min_area
      else if strContains content_type "image/jxl" then
        handle_jpeg_xl url response.body o.jxl folder
      else
        handle_generic_image url response.body o.pil folder min_area
    else
      [Event.log ("Failed to download: " ++ url ++ ", Status code: " ++
        toString response.statusCode)]

/-- The body of the per-URL loop of `scrape_images` (main.py lines 213 to
226): HEAD probe, then full fetch-and-dispatch; a raised exception
anywhere in the block is caught and logged for this URL only. -/
def processUrl (img_url : String) (o : UrlOracle) (folder : String) (min_area : Int) :
    List Event :=
  match o.head with
  | .error e => [Event.log ("Error validating image URL " ++ img_url ++ ": " ++ e)]
  | .ok hr =>
    if hr.statusCode == 200 && strContains hr.contentType "image" then
      Event.log ("Processing image: " ++ img_url) :: download_image img_url o folder min_area
    else
      [Event.log ("Skipped (not an image or not accessible): " ++ img_url)]

def processUrls (urls : List String) (net : String → UrlOracle) (folder : String)
    (min_area : Int) : List Event :=
  urls.flatMap fun u => processUrl u (net u) folder min_area

/-- One entry of the extraction response: `(src, data-src)`, either of
which may be absent or null. -/
structure ImgEntry where
  src : Option String
  dataSrc : Option String

/-- Python truthiness of `img.get(...)`: `None` and `""` are falsy. -/
def pyTruthy : Option String → Bool
  | none => false
  | some s => s ≠ ""

/-- Python `a or b` on optional strings. -/
def pyOr (a b : Option String) : Option String := if pyTruthy a then a else b

/-- Embedding of `img.get("src") or img.get("data-src")` (main.py line 202). -/
def selectSrc (e : ImgEntry) : Option String := pyOr e.src e.dataSrc

/-- The candidate URLs one extraction entry contributes (main.py lines
202 to 209): the chosen source attribute, if truthy, resolved against
the page URL, kept only with an http(s) scheme. `join` stands for the
external `urljoin`. -/
def entryUrls (pageUrl : String) (join : String → String → String) (e : ImgEntry) :
    List String :=
  match selectSrc e with
  | none => []
  | some s =>
    if s ≠ "" then
      let full_url := join pageUrl s
      if full_url.startsWith "http" then [full_url] else []
    else []

def extractImgUrls (pageUrl : String) (join : String → String → String)
    (imgs : List ImgEntry) : List String :=
  imgs.flatMap (entryUrls pageUrl join)

/-- Outcome of the ScrapingBee call plus `json.loads` on its body:
a raised exception, a non-ok response, a body that fails to parse
(raised inside the same `try`), or the parsed `all_images` list. -/
inductive BeeOutcome
  | raised (msg : String)
  | notOk (statusCode : Nat) (text : String)
  | badJson (msg : String)
  | ok (all_images : List ImgEntry)

/-- Embedding of `scrape_images` (main.py lines 170 to 233).
`get_api_key()` runs before the `try` block, so a missing key escapes as
an error (Python: `ValueError`); every other failure is caught inside the
function and becomes log lines. The `os.makedirs` call and the purely
informational prints before the loop are not modelled. -/
def scrape_images (apiKey : Option String) (bee : BeeOutcome) (url output_folder : String)
    (join : String → String → String) (net : String → UrlOracle) (min_area : Int) :
    Except String (List Event) :=
  match apiKey with
  | none => .error "SCRAPINGBEE_API_KEY not found in .env file"
  | some _ =>
    .ok <|
      match bee with
      | .raised msg => [Event.log ("Error during scraping: " ++ msg)]
      | .badJson msg => [Event.log ("Error during scraping: " ++ msg)]
      | .notOk status text =>
        [Event.log ("Failed to scrape the website. Status code: " ++ toString status),
         Event.log ("Response: " ++ text)]
      | .ok all_images =>
        let img_urls := extractImgUrls url join all_images
        Event.log ("Found " ++ toString img_urls.length ++ " valid image URLs") ::
          processUrls img_urls net output_folder min_area

/-! ## The output directory

An association list from path to file data; writing an existing path
replaces its data in place, writing a fresh path appends it. -/

abbrev FS := List (String × FileData)

def fsWrite : FS → String → FileData → FS
  | [], n, d => [(n, d)]
  | (m, e) :: rest, n, d =>
    if m = n then (n, d) :: rest else (m, e) :: fsWrite rest n d

def fsLookup : FS → String → Option FileData
  | [], _ => none
  | (m, e) :: rest, n => if m = n then some e else fsLookup rest n

/-- Apply the write events of an event list to a directory state. -/
def applyEvents (fs : FS) (es : List Event) : FS :=
  es.foldl (fun acc e =>
    match e with
    | .write n d => fsWrite acc n d
    | .log _ => acc) fs

/-- True when the event list contains at least one file write. -/
def hasWrite (es : List Event) : Bool :=
  es.any fun e =>
    match e with
    | .write _ _ => true
    | .log _ => false

/-- The number of file writes in an event list. -/
def numWrites (es : List Event) : Nat :=
  (es.filter fun e =>
    match e with
    | .write _ _ => true
    | .log _ => false).length

/-- The attribute value the SVG classifier converts: lookup with default
"0", unit stripping, whitespace stripping, empty-to-"0", then float
conversion. This is, definitionally, the conversion `get_svg_size`
performs on each of its two attributes. -/
def svgAttrValue (attrib : List (String × String)) (name : String) : Option ℚ :=
  pyFloat (pyOrZero (pyStrip
    (pyReplace (pyReplace (pyReplace ((attrib.lookup name).getD "0") "px" "") "em" "") "%" "")))

/-! ## Helper lemmas -/

theorem hasWrite_append (a b : List Event) :
    hasWrite (a ++ b) = (hasWrite a || hasWrite b) := List.any_append

/-- The classifier itself only logs; it never writes a file. -/
theorem get_svg_size_no_write (p : SvgParse) : hasWrite (get_svg_size p).2 = false := by
  cases p with
  | error msg => simp [get_svg_size, hasWrite]
  | root attrib =>
    simp only [get_svg_size]
    split <;> simp [hasWrite]

/-- The SVG handler writes files exactly when the classified area passes
the `>=` filter. -/
theorem hasWrite_handle_svg (u : String) (c : List Nat) (p : SvgParse) (f : String) (m : ℤ) :
    hasWrite (handle_svg u c p f m) =
      decide ((get_svg_size p).1.1 * (get_svg_size p).1.2 ≥ (m : ℚ)) := by
  simp only [handle_svg, hasWrite_append, get_svg_size_no_write, Bool.false_or]
  by_cases hcond : (get_svg_size p).1.1 * (get_svg_size p).1.2 ≥ (m : ℚ)
  · rw [if_pos hcond]; simp [hasWrite, hcond]
  · rw [if_neg hcond]; simp [hasWrite, hcond]

/-- The generic handler writes files exactly when the decoded area passes
the `>=` filter. -/
theorem hasWrite_handle_generic (u : String) (c : List Nat) (fmt : String) (w h : Nat)
    (f : String) (m : ℤ) :
    hasWrite (handle_generic_image u c (.ok fmt w h) f m) = decide ((w * h : ℤ) ≥ m) := by
  simp only [handle_generic_image]
  by_cases hcond : (w * h : ℤ) ≥ m
  · rw [if_pos hcond]; simp [hasWrite, hcond]
  · rw [if_neg hcond]; simp [hasWrite, hcond]

/-! ## Claims C3, C4, C5: the size filter and the SVG classifier -/

/-- C3 counterexample. The claim says a non-positive width or height
attribute is reported as area zero and persisted only at threshold zero.
On the input SVG root with `width="-300"`, `height="-200"` (both
non-positive) the classifier reports `(-300, -200)`, whose area `60000`
is not zero, and the handler persists the image at the nonzero threshold
`50000`. -/
theorem C3_counterexample :
    (get_svg_size (.root [("width", "-300"), ("height", "-200")])).1 = (-300, -200) ∧
      ¬((-300 : ℚ) * (-200) = 0) ∧
      hasWrite (handle_svg "http://example.com/a.svg" [60, 115, 118, 103, 62]
        (.root [("width", "-300"), ("height", "-200")]) "scraped_images" 50000) = true := by
  refine ⟨by decide, by norm_num, ?_⟩
  rw [hasWrite_handle_svg]
  rw [show (get_svg_size (.root [("width", "-300"), ("height", "-200")])).1 = (-300, -200)
    from by decide]
  norm_num

/-- C3 (amended): for every classified SVG whose root element has a
width or height attribute that is missing or converts to zero, the
classifier reports the image as area zero, so it is persisted only when
the (non-negative) filter threshold is zero. (Negative attribute values,
by contrast, are passed through unchanged, as the counterexample shows.) -/
theorem C3_amended (attrib : List (String × String)) (u : String) (c : List Nat)
    (folder : String) (m : ℤ) (hm : 0 ≤ m)
    (hzero : svgAttrValue attrib "width" = some 0 ∨ svgAttrValue attrib "height" = some 0) :
    (get_svg_size (.root attrib)).1 = (0, 0) ∧
      (hasWrite (handle_svg u c (.root attrib) folder m) = true ↔ m = 0) := by
  have hdim : (get_svg_size (.root attrib)).1 = (0, 0) := by
    unfold get_svg_size
    rcases hzero with hz | hz <;>
      · simp only [svgAttrValue] at hz
        rcases hw : pyFloat (pyOrZero (pyStrip (pyReplace (pyReplace
            (pyReplace ((attrib.lookup "width").getD "0") "px" "") "em" "") "%" ""))) with _ | w <;>
          rcases hh : pyFloat (pyOrZero (pyStrip (pyReplace (pyReplace
            (pyReplace ((attrib.lookup "height").getD "0") "px" "") "em" "") "%" ""))) with _ | h <;>
          simp_all
  refine ⟨hdim, ?_⟩
  rw [hasWrite_handle_svg, hdim]
  simp only [decide_eq_true_eq]
  constructor
  · intro hge
    have : (m : ℚ) ≤ 0 := by simpa using hge
    have : m ≤ 0 := by exact_mod_cast this
    omega
  · intro he; subst he; norm_num

/-- C3 amended witness: an SVG root with no attributes at all has both
attributes missing, is reported as area zero, and is persisted at
threshold zero. -/
theorem C3_amended_witness :
    (get_svg_size (.root [])).1 = (0, 0) ∧
      (hasWrite (handle_svg "http://example.com/a.svg" [] (.root []) "scraped_images" 0) =
        true ↔ (0 : ℤ) = 0) :=
  C3_amended [] "http://example.com/a.svg" [] "scraped_images" 0 (by norm_num)
    (Or.inl (by decide))

/-- C4: the size filter is inclusive at the boundary. For non-negative
width, height and min_area, a candidate whose area is exactly `min_area`
is persisted and one whose area is `min_area - 1` is not, on the vector
(SVG) path and on the generic raster path alike. -/
theorem C4_filter_boundary (u₁ u₂ : String) (c₁ c₂ : List Nat) (p : SvgParse)
    (fmt folder : String) (w h : ℚ) (wn hn : Nat) (m : ℤ)
    (hp : (get_svg_size p).1 = (w, h)) (hw : 0 ≤ w) (hh : 0 ≤ h) (hm : 0 ≤ m) :
    (w * h = (m : ℚ) → hasWrite (handle_svg u₁ c₁ p folder m) = true) ∧
      (w * h = (m : ℚ) - 1 → hasWrite (handle_svg u₁ c₁ p folder m) = false) ∧
      ((wn * hn : ℤ) = m → hasWrite (handle_generic_image u₂ c₂ (.ok fmt wn hn) folder m) = true) ∧
      ((wn * hn : ℤ) = m - 1 →
        hasWrite (handle_generic_image u₂ c₂ (.ok fmt wn hn) folder m) = false) := by
  refine ⟨?_, ?_, ?_, ?_⟩
  · intro harea
    rw [hasWrite_handle_svg, hp]
    simp only [decide_eq_true_eq]
    rw [show ((w, h).1 * (w, h).2 : ℚ) = w * h from rfl, harea]
  · intro harea
    rw [hasWrite_handle_svg, hp]
    simp only [decide_eq_false_iff_not]
    rw [show ((w, h).1 * (w, h).2 : ℚ) = w * h from rfl, harea]
    intro hcontra; linarith
  · intro harea
    rw [hasWrite_handle_generic]
    simp only [decide_eq_true_eq]
    omega
  · intro harea
    rw [hasWrite_handle_generic]
    simp only [decide_eq_false_iff_not]
    omega

/-- C4 witness: a 300 by 200 SVG is persisted at threshold exactly 60000
and rejected at threshold 60001; an 800 by 600 raster image is persisted
at threshold exactly 480000 and rejected at threshold 480001. -/
theorem C4_filter_boundary_witness :
    hasWrite (handle_svg "http://example.com/a.svg" []
        (.root [("width", "300"), ("height", "200")]) "scraped_images" 60000) = true ∧
      hasWrite (handle_svg "http://example.com/a.svg" []
        (.root [("width", "300"), ("height", "200")]) "scraped_images" 60001) = false ∧
      hasWrite (handle_generic_image "http://example.com/b.png" []
        (.ok "PNG" 800 600) "scraped_images" 480000) = true ∧
      hasWrite (handle_generic_image "http://example.com/b.png" []
        (.ok "PNG" 800 600) "scraped_images" 480001) = false := by
  have hp : (get_svg_size (.root [("width", "300"), ("height", "200")])).1 = (300, 200) := by
    decide
  refine ⟨?_, ?_, ?_, ?_⟩
  · exact (C4_filter_boundary "http://example.com/a.svg" "x" [] [] _ "PNG" "scraped_images"
      300 200 1 1 60000 hp (by norm_num) (by norm_num) (by norm_num)).1 (by norm_num)
  · exact (C4_filter_boundary "http://example.com/a.svg" "x" [] [] _ "PNG" "scraped_images"
      300 200 1 1 60001 hp (by norm_num) (by norm_num) (by norm_num)).2.1 (by norm_num)
  · exact (C4_filter_boundary "x" "http://example.com/b.png" [] [] (.root []) "PNG"
      "scraped_images" 0 0 800 600 480000 (by decide) (by norm_num) (by norm_num)
      (by norm_num)).2.2.1 (by norm_num)
  · exact (C4_filter_boundary "x" "http://example.com/b.png" [] [] (.root []) "PNG"
      "scraped_images" 0 0 800 600 480001 (by decide) (by norm_num) (by norm_num)
      (by norm_num)).2.2.2 (by norm_num)

/-- C5 counterexample. The claim says a zero-area classification result
is rejected for every caller-supplied non-negative `min_area`. At the
non-negative threshold `min_area = 0` the filter `0 * 0 >= 0` passes, and
the handler writes both files: an SVG with no width or height attribute
is classified as area zero yet persisted. -/
theorem C5_counterexample :
    (get_svg_size (.root [])).1 = (0, 0) ∧ (0 : ℤ) ≤ 0 ∧
      hasWrite (handle_svg "http://example.com/a.svg" [] (.root []) "scraped_images" 0) =
        true := by
  refine ⟨by decide, le_refl 0, ?_⟩
  rw [hasWrite_handle_svg, show (get_svg_size (.root [])).1 = (0, 0) from by decide]
  norm_num

/-- C5 (amended): a candidate whose classification result has area zero
is rejected and nothing is written for every POSITIVE `min_area`, on the
vector and generic paths; at `min_area = 0` a zero-area candidate passes
the `>=` filter and is persisted (see the counterexample). -/
theorem C5_amended (u₁ u₂ : String) (c₁ c₂ : List Nat) (p : SvgParse) (fmt folder : String)
    (wn hn : Nat) (m : ℤ) (hm : 0 < m)
    (hsvg : (get_svg_size p).1.1 * (get_svg_size p).1.2 = 0)
    (hgen : (wn * hn : ℤ) = 0) :
    hasWrite (handle_svg u₁ c₁ p folder m) = false ∧
      hasWrite (handle_generic_image u₂ c₂ (.ok fmt wn hn) folder m) = false := by
  constructor
  · rw [hasWrite_handle_svg, hsvg]
    simp only [decide_eq_false_iff_not]
    intro hcontra
    have : (m : ℚ) ≤ 0 := hcontra
    have : m ≤ 0 := by exact_mod_cast this
    omega
  · rw [hasWrite_handle_generic]
    simp only [decide_eq_false_iff_not]
    omega

/-- C5 amended witness: an unmeasurable SVG (no attributes) and a 0 by 0
raster image are both rejected at the positive threshold 1. -/
theorem C5_amended_witness :
    hasWrite (handle_svg "http://example.com/a.svg" [] (.root []) "scraped_images" 1) = false ∧
      hasWrite (handle_generic_image "http://example.com/b.png" [] (.ok "PNG" 0 0)
        "scraped_images" 1) = false := by
  have h0 : (get_svg_size (.root [])).1 = (0, 0) := by decide
  exact C5_amended "http://example.com/a.svg" "http://example.com/b.png" [] [] (.root [])
    "PNG" "scraped_images" 0 0 1 (by norm_num) (by simp [h0]) (by norm_num)

/-! ## Claims C1, C2: the JPEG XL path -/

/-- C1 counterexample. The claim says that on the JPEG XL path the image
bytes and metadata sidecar are written only if `width * height >=
min_area`. A JPEG XL candidate decoding to 1 by 1 at `min_area = 50000`
has both the image artifact and the metadata sidecar written although
its area 1 is below the threshold: `handle_jpeg_xl` takes no `min_area`
at all. -/
theorem C1_counterexample :
    numWrites (download_image "http://example.com/i.jxl"
      ⟨.ok ⟨200, "image/jxl", [255, 10]⟩, .ok ⟨200, "image/jxl", [255, 10]⟩,
        .error "not xml", .ok 1 1, .unidentified⟩ "scraped_images" 50000) = 2 ∧
      Event.write (osJoin "scraped_images" (md5_hash "http://example.com/i.jxl" ++ ".jxl"))
          (.bytes [255, 10]) ∈
        download_image "http://example.com/i.jxl"
          ⟨.ok ⟨200, "image/jxl", [255, 10]⟩, .ok ⟨200, "image/jxl", [255, 10]⟩,
            .error "not xml", .ok 1 1, .unidentified⟩ "scraped_images" 50000 ∧
      Event.write (osJoin "scraped_images" (md5_hash "http://example.com/i.jxl" ++ ".json"))
          (.meta "http://example.com/i.jxl" "JPEG XL" 1 1) ∈
        download_image "http://example.com/i.jxl"
          ⟨.ok ⟨200, "image/jxl", [255, 10]⟩, .ok ⟨200, "image/jxl", [255, 10]⟩,
            .error "not xml", .ok 1 1, .unidentified⟩ "scraped_images" 50000 ∧
      ¬((1 * 1 : ℤ) ≥ 50000) := by
  refine ⟨by decide, by decide, by decide, by decide⟩

/-- C1 (amended): the vector and generic paths perform classify, filter,
persist with the caller's `min_area` (their writes happen exactly when
`width * height >= min_area`), but the JPEG XL path applies no size
filter at all: its result does not depend on `min_area`, a successful
decode always produces both the image write and the metadata write, and
a failed decode still produces the image write. -/
theorem C1_amended (u : String) (body : List Nat) (ct folder : String) (m₁ m₂ : ℤ)
    (hr : Except String Response) (sv : SvgParse) (jd : JxlDecode) (pil : PilOpen)
    (hsvg : strContains ct "image/svg+xml" = false)
    (hjxl : strContains ct "image/jxl" = true) :
    download_image u ⟨hr, .ok ⟨200, ct, body⟩, sv, jd, pil⟩ folder m₁ =
        download_image u ⟨hr, .ok ⟨200, ct, body⟩, sv, jd, pil⟩ folder m₂ ∧
      (∀ w h : Nat, numWrites (handle_jpeg_xl u body (.ok w h) folder) = 2) ∧
      (∀ e : String, numWrites (handle_jpeg_xl u body (.error e) folder) = 1) ∧
      hasWrite (handle_svg u body sv folder m₁) =
        decide ((get_svg_size sv).1.1 * (get_svg_size sv).1.2 ≥ (m₁ : ℚ)) ∧
      (∀ fmt w h, hasWrite (handle_generic_image u body (.ok fmt w h) folder m₁) =
        decide ((w * h : ℤ) ≥ m₁)) := by
  refine ⟨?_, ?_, ?_, hasWrite_handle_svg u body sv folder m₁,
    fun fmt w h => hasWrite_handle_generic u body fmt w h folder m₁⟩
  · simp [download_image, hsvg, hjxl]
  · intro w h; simp [handle_jpeg_xl, numWrites]
  · intro e; simp [handle_jpeg_xl, numWrites]

/-- C1 amended witness: instantiated at content type `image/jxl`, two
different thresholds, and a concrete candidate. -/
theorem C1_amended_witness :
    download_image "http://example.com/i.jxl"
        ⟨.ok ⟨200, "image/jxl", [255, 10]⟩, .ok ⟨200, "image/jxl", [255, 10]⟩,
          .error "not xml", .ok 1 1, .unidentified⟩ "scraped_images" 50000 =
      download_image "http://example.com/i.jxl"
        ⟨.ok ⟨200, "image/jxl", [255, 10]⟩, .ok ⟨200, "image/jxl", [255, 10]⟩,
          .error "not xml", .ok 1 1, .unidentified⟩ "scraped_images" 0 :=
  (C1_amended "http://example.com/i.jxl" [255, 10] "image/jxl" "scraped_images" 50000 0
    (.ok ⟨200, "image/jxl", [255, 10]⟩) (.error "not xml") (.ok 1 1) .unidentified
    (by decide) (by decide)).1

/-- C2 counterexample. The claim says that on a JPEG XL decode failure no
file is written. On a concrete failing candidate the handler's event list
contains the image-artifact write (performed before the decode attempt),
so a file IS written; only the metadata sidecar is absent. -/
theorem C2_counterexample :
    handle_jpeg_xl "http://example.com/i.jxl" [255, 10] (.error "decode failed")
        "scraped_images" =
      [Event.write (osJoin "scraped_images"
          (md5_hash "http://example.com/i.jxl" ++ ".jxl")) (.bytes [255, 10]),
        Event.log ("Error handling JPEG XL image http://example.com/i.jxl: decode failed")] ∧
      hasWrite (handle_jpeg_xl "http://example.com/i.jxl" [255, 10] (.error "decode failed")
        "scraped_images") = true := by
  refine ⟨by decide, by decide⟩

/-- C2 (amended): for every JPEG XL candidate whose payload fails to
decode, the failure is reported as a log line and the metadata sidecar is
not written, but the image artifact has already been written (the byte
write precedes the decode step). -/
theorem C2_amended (u : String) (body : List Nat) (e folder : String) :
    handle_jpeg_xl u body (.error e) folder =
      [Event.write (osJoin folder (md5_hash u ++ ".jxl")) (.bytes body),
        Event.log ("Error handling JPEG XL image " ++ u ++ ": " ++ e)] := by
  rfl

/-! ## Claim C6: routing by declared content type -/

/-- C6: for every fetched 200 response, routing is decided solely by the
declared content type, in order: a content type containing
`image/svg+xml` goes to the SVG handler regardless of body bytes or the
other decode outcomes; otherwise one containing `image/jxl` goes to the
JPEG XL handler; otherwise the generic raster handler runs. -/
theorem C6_routing (u : String) (body : List Nat) (ct folder : String) (m : ℤ)
    (hr : Except String Response) (sv : SvgParse) (jd : JxlDecode) (pil : PilOpen) :
    (strContains ct "image/svg+xml" = true →
      download_image u ⟨hr, .ok ⟨200, ct, body⟩, sv, jd, pil⟩ folder m =
        handle_svg u body sv folder m) ∧
      (strContains ct "image/svg+xml" = false → strContains ct "image/jxl" = true →
        download_image u ⟨hr, .ok ⟨200, ct, body⟩, sv, jd, pil⟩ folder m =
          handle_jpeg_xl u body jd folder) ∧
      (strContains ct "image/svg+xml" = false → strContains ct "image/jxl" = false →
        download_image u ⟨hr, .ok ⟨200, ct, body⟩, sv, jd, pil⟩ folder m =
          handle_generic_image u body pil folder m) := by
  refine ⟨fun h1 => ?_, fun h1 h2 => ?_, fun h1 h2 => ?_⟩ <;>
    simp [download_image, h1]
  · simp [h2]
  · simp [h2]

/-- C6 witness: a response declared `image/svg+xml` whose bytes are a
PNG-like payload and whose PIL oracle would succeed is still routed to
the SVG handler; `image/jxl` goes to the JPEG XL handler; `image/png`
goes to the generic handler. -/
theorem C6_routing_witness :
    download_image "http://example.com/x" ⟨.ok ⟨200, "image/svg+xml", [137, 80]⟩,
        .ok ⟨200, "image/svg+xml", [137, 80]⟩, .error "not xml", .ok 9 9,
        .ok "PNG" 800 600⟩ "scraped_images" 0 =
      handle_svg "http://example.com/x" [137, 80] (.error "not xml") "scraped_images" 0 ∧
      download_image "http://example.com/x" ⟨.ok ⟨200, "image/jxl", [137, 80]⟩,
          .ok ⟨200, "image/jxl", [137, 80]⟩, .error "not xml", .ok 9 9,
          .ok "PNG" 800 600⟩ "scraped_images" 0 =
        handle_jpeg_xl "http://example.com/x" [137, 80] (.ok 9 9) "scraped_images" ∧
      download_image "http://example.com/x" ⟨.ok ⟨200, "image/png", [137, 80]⟩,
          .ok ⟨200, "image/png", [137, 80]⟩, .error "not xml", .ok 9 9,
          .ok "PNG" 800 600⟩ "scraped_images" 0 =
        handle_generic_image "http://example.com/x" [137, 80] (.ok "PNG" 800 600)
          "scraped_images" 0 :=
  ⟨(C6_routing "http://example.com/x" [137, 80] "image/svg+xml" "scraped_images" 0
      (.ok ⟨200, "image/svg+xml", [137, 80]⟩) (.error "not xml") (.ok 9 9)
      (.ok "PNG" 800 600)).1 (by decide),
    (C6_routing "http://example.com/x" [137, 80] "image/jxl" "scraped_images" 0
      (.ok ⟨200, "image/jxl", [137, 80]⟩) (.error "not xml") (.ok 9 9)
      (.ok "PNG" 800 600)).2.1 (by decide) (by decide),
    (C6_routing "http://example.com/x" [137, 80] "image/png" "scraped_images" 0
      (.ok ⟨200, "image/png", [137, 80]⟩) (.error "not xml") (.ok 9 9)
      (.ok "PNG" 800 600)).2.2 (by decide) (by decide)⟩

/-! ## Claim C7: per-candidate failure isolation -/

/-- C7: failures are isolated per candidate. With an API key present,
`scrape_images` always returns normally (every collaborator failure,
including a raised extraction call and an unparseable extraction body,
becomes log lines); only the missing-credential case escapes as an
error. Processing a list of candidate URLs is the concatenation of
processing each one independently, so one candidate's failure (raised
HEAD probe, raised GET, or any handler-level failure recorded in its
oracle) leaves every other candidate's events unchanged; a candidate
whose probe or fetch raises contributes only a log line. -/
theorem C7_isolation :
    (∀ (k : String) (bee : BeeOutcome) (url folder : String)
        (join : String → String → String) (net : String → UrlOracle) (m : ℤ),
        ∃ es, scrape_images (some k) bee url folder join net m = .ok es) ∧
      (∀ (bee : BeeOutcome) (url folder : String) (join : String → String → String)
        (net : String → UrlOracle) (m : ℤ),
        scrape_images none bee url folder join net m =
          .error "SCRAPINGBEE_API_KEY not found in .env file") ∧
      (∀ (us₁ us₂ : List String) (net : String → UrlOracle) (folder : String) (m : ℤ),
        processUrls (us₁ ++ us₂) net folder m =
          processUrls us₁ net folder m ++ processUrls us₂ net folder m) ∧
      (∀ (u e : String) (g : Except String Response) (sv : SvgParse) (jd : JxlDecode)
        (pil : PilOpen) (folder : String) (m : ℤ),
        processUrl u ⟨.error e, g, sv, jd, pil⟩ folder m =
          [Event.log ("Error validating image URL " ++ u ++ ": " ++ e)]) ∧
      (∀ (u e : String) (h : Except String Response) (sv : SvgParse) (jd : JxlDecode)
        (pil : PilOpen) (folder : String) (m : ℤ),
        download_image u ⟨h, .error e, sv, jd, pil⟩ folder m =
          [Event.log ("Error downloading " ++ u ++ ": " ++ e)]) := by
  refine ⟨?_, ?_, ?_, ?_, ?_⟩
  · intro k bee url folder join net m
    cases bee <;> exact ⟨_, rfl⟩
  · intro bee url folder join net m; rfl
  · intro us₁ us₂ net folder m
    simp [processUrls]
  · intro u e g sv jd pil folder m; rfl
  · intro u e h sv jd pil folder m; rfl

/-! ## Claim C8: idempotent persistence -/

theorem fsLookup_fsWrite_self (fs : FS) (n : String) (d : FileData) :
    fsLookup (fsWrite fs n d) n = some d := by
  induction fs with
  | nil => simp [fsWrite, fsLookup]
  | cons hd tl ih =>
    obtain ⟨m, e⟩ := hd
    by_cases h : m = n <;> simp [fsWrite, fsLookup, h, ih]

theorem fsLookup_fsWrite_ne (fs : FS) (n n' : String) (d : FileData) (h : n' ≠ n) :
    fsLookup (fsWrite fs n d) n' = fsLookup fs n' := by
  induction fs with
  | nil => simp [fsWrite, fsLookup, Ne.symm h]
  | cons hd tl ih =>
    obtain ⟨m, e⟩ := hd
    by_cases hm : m = n
    · subst hm
      simp [fsWrite, fsLookup, h, Ne.symm h]
    · by_cases hm' : m = n'
      · subst hm'
        simp [fsWrite, fsLookup, hm]
      · simp [fsWrite, fsLookup, hm, hm', ih]

/-- Writing a value that is already stored leaves the directory
unchanged. -/
theorem fsWrite_lookup_eq (fs : FS) (n : String) (d : FileData)
    (h : fsLookup fs n = some d) : fsWrite fs n d = fs := by
  induction fs with
  | nil => simp [fsLookup] at h
  | cons hd tl ih =>
    obtain ⟨m, e⟩ := hd
    by_cases hm : m = n
    · subst hm
      simp [fsLookup] at h
      simp [fsWrite, h]
    · simp [fsLookup, hm] at h
      simp [fsWrite, hm, ih h]

theorem applyEvents_append (fs : FS) (a b : List Event) :
    applyEvents fs (a ++ b) = applyEvents (applyEvents fs a) b := by
  simp [applyEvents, List.foldl_append]

theorem applyEvents_no_write (fs : FS) (es : List Event) (h : hasWrite es = false) :
    applyEvents fs es = fs := by
  induction es generalizing fs with
  | nil => rfl
  | cons e tl ih =>
    cases e with
    | write n d => simp [hasWrite] at h
    | log l =>
      have htl : hasWrite tl = false := by
        simpa [hasWrite] using h
      simpa [applyEvents] using ih fs htl

/-- No write event occurs in a write-free event list. -/
theorem write_not_mem (es : List Event) (h : hasWrite es = false) (n : String)
    (d : FileData) : Event.write n d ∉ es := by
  intro hm
  have : hasWrite es = true := List.any_eq_true.2 ⟨Event.write n d, hm, rfl⟩
  rw [h] at this
  exact Bool.false_ne_true this

/-- Rewriting two distinct paths with values they already hold leaves the
directory unchanged. -/
theorem fsWrite_two_idem (fs : FS) (n₁ n₂ : String) (d₁ d₂ : FileData) (hne : n₁ ≠ n₂) :
    fsWrite (fsWrite (fsWrite (fsWrite fs n₁ d₁) n₂ d₂) n₁ d₁) n₂ d₂ =
      fsWrite (fsWrite fs n₁ d₁) n₂ d₂ := by
  have h1 : fsLookup (fsWrite (fsWrite fs n₁ d₁) n₂ d₂) n₁ = some d₁ := by
    rw [fsLookup_fsWrite_ne _ _ _ _ hne]
    exact fsLookup_fsWrite_self _ _ _
  rw [fsWrite_lookup_eq _ _ _ h1]
  exact fsWrite_lookup_eq _ _ _ (fsLookup_fsWrite_self _ _ _)

/-- C8: persisting the same URL with the same bytes a second time is
idempotent on the output directory: the second pass writes the same two
fingerprint-derived paths with identical content, so the resulting
directory state (set of files and their contents) is unchanged and no
additional files are created. -/
theorem C8_idempotent_overwrite (u : String) (c : List Nat) (p : SvgParse) (folder : String)
    (m : ℤ) (fs : FS) :
    applyEvents (applyEvents fs (handle_svg u c p folder m)) (handle_svg u c p folder m) =
      applyEvents fs (handle_svg u c p folder m) := by
  have hname : osJoin folder (md5_hash u ++ ".svg") ≠ osJoin folder (md5_hash u ++ ".json") := by
    intro hEq
    have hlen := congrArg String.length hEq
    simp only [osJoin, String.length_append] at hlen
    rw [show (".svg" : String).length = 4 from rfl,
      show (".json" : String).length = 5 from rfl] at hlen
    omega
  simp only [handle_svg]
  by_cases hcond : (get_svg_size p).1.1 * (get_svg_size p).1.2 ≥ (m : ℚ)
  · rw [if_pos hcond]
    rw [applyEvents_append, applyEvents_append,
      applyEvents_no_write _ _ (get_svg_size_no_write p),
      applyEvents_no_write _ _ (get_svg_size_no_write p)]
    simp only [applyEvents, List.foldl_cons, List.foldl_nil]
    exact fsWrite_two_idem _ _ _ _ _ hname
  · rw [if_neg hcond]
    have hnw : hasWrite ((get_svg_size p).2 ++
        [Event.log ("Skipped (too small): " ++ u)]) = false := by
      rw [hasWrite_append, get_svg_size_no_write]
      simp [hasWrite]
    rw [applyEvents_no_write _ _ hnw]

/-! ## Claim C9: the fingerprint is pure and content-independent -/

theorem write_mem_handle_svg (u : String) (c : List Nat) (p : SvgParse) (f : String)
    (m : ℤ) (n : String) (d : FileData) (h : Event.write n d ∈ handle_svg u c p f m) :
    n = osJoin f (md5_hash u ++ ".svg") ∨ n = osJoin f (md5_hash u ++ ".json") := by
  simp only [handle_svg, List.mem_append] at h
  rcases h with h | h
  · exact absurd h (write_not_mem _ (get_svg_size_no_write p) n d)
  · by_cases hcond : (get_svg_size p).1.1 * (get_svg_size p).1.2 ≥ (m : ℚ)
    · rw [if_pos hcond] at h
      simp only [List.mem_cons, List.not_mem_nil, or_false] at h
      rcases h with h | h | h | h
      · injection h with h1 h2; exact Or.inl h1
      · exact absurd h (by simp)
      · injection h with h1 h2; exact Or.inr h1
      · exact absurd h (by simp)
    · rw [if_neg hcond] at h
      simp at h

theorem write_mem_handle_jpeg_xl (u : String) (c : List Nat) (jd : JxlDecode) (f : String)
    (n : String) (d : FileData) (h : Event.write n d ∈ handle_jpeg_xl u c jd f) :
    n = osJoin f (md5_hash u ++ ".jxl") ∨ n = osJoin f (md5_hash u ++ ".json") := by
  cases jd with
  | ok w ht =>
    simp only [handle_jpeg_xl, List.mem_cons, List.not_mem_nil, or_false] at h
    rcases h with h | h | h | h
    · injection h with h1 h2; exact Or.inl h1
    · exact absurd h (by simp)
    · injection h with h1 h2; exact Or.inr h1
    · exact absurd h (by simp)
  | error msg =>
    simp only [handle_jpeg_xl, List.mem_cons, List.not_mem_nil, or_false] at h
    rcases h with h | h
    · injection h with h1 h2; exact Or.inl h1
    · exact absurd h (by simp)

theorem write_mem_handle_generic (u : String) (c : List Nat) (op : PilOpen) (f : String)
    (m : ℤ) (n : String) (d : FileData) (h : Event.write n d ∈ handle_generic_image u c op f m) :
    (∃ fmt : String, n = osJoin f (md5_hash u ++ "." ++ fmt)) ∨
      n = osJoin f (md5_hash u ++ ".json") := by
  cases op with
  | ok fmt w ht =>
    simp only [handle_generic_image] at h
    by_cases hcond : (w * ht : ℤ) ≥ m
    · rw [if_pos hcond] at h
      simp only [List.mem_cons, List.not_mem_nil, or_false] at h
      rcases h with h | h | h | h
      · injection h with h1 h2; exact Or.inl ⟨fmt.toLower, h1⟩
      · exact absurd h (by simp)
      · injection h with h1 h2; exact Or.inr h1
      · exact absurd h (by simp)
    · rw [if_neg hcond] at h
      simp at h
  | unidentified => simp [handle_generic_image] at h
  | error msg => simp [handle_generic_image] at h

/-- C9: the fingerprint is deterministic and pure. `md5_hash` is a
function of the URL string alone, and every file path the dispatcher
writes, on any path and for any response body and decode outcome, has
the stem `md5_hash url`: the storage key depends on the URL only, never
on the image content. -/
theorem C9_fingerprint_pure :
    (∀ u₁ u₂ : String, u₁ = u₂ → md5_hash u₁ = md5_hash u₂) ∧
      (∀ (u folder : String) (o : UrlOracle) (m : ℤ) (n : String) (d : FileData),
        Event.write n d ∈ download_image u o folder m →
        ∃ ext : String, n = osJoin folder (md5_hash u ++ ext)) := by
  constructor
  · intro u₁ u₂ h; rw [h]
  · intro u folder o m n d h
    rcases hget : o.get with e | r
    · simp only [download_image, hget] at h
      simp at h
    · simp only [download_image, hget] at h
      by_cases hst : (r.statusCode == 200) = true
      · rw [if_pos hst] at h
        by_cases h1 : strContains r.contentType "image/svg+xml" = true
        · rw [if_pos h1] at h
          rcases write_mem_handle_svg _ _ _ _ _ _ _ h with h' | h'
          · exact ⟨".svg", h'⟩
          · exact ⟨".json", h'⟩
        · rw [if_neg h1] at h
          by_cases h2 : strContains r.contentType "image/jxl" = true
          · rw [if_pos h2] at h
            rcases write_mem_handle_jpeg_xl _ _ _ _ _ _ h with h' | h'
            · exact ⟨".jxl", h'⟩
            · exact ⟨".json", h'⟩
          · rw [if_neg h2] at h
            rcases write_mem_handle_generic _ _ _ _ _ _ _ h with ⟨fmt, h'⟩ | h'
            · exact ⟨"." ++ fmt, by rw [h', String.append_assoc]⟩
            · exact ⟨".json", h'⟩
      · rw [if_neg hst] at h
        simp at h

/-- C9 witness: the artifact path of a concrete JPEG XL candidate has the
fingerprint stem of its URL, via the theorem applied at that candidate;
the determinism component applied at a concrete URL. -/
theorem C9_fingerprint_pure_witness :
    md5_hash "http://example.com/i.jxl" = md5_hash "http://example.com/i.jxl" ∧
      ∃ ext : String,
        osJoin "scraped_images" (md5_hash "http://example.com/i.jxl" ++ ".jxl") =
          osJoin "scraped_images" (md5_hash "http://example.com/i.jxl" ++ ext) :=
  ⟨C9_fingerprint_pure.1 "http://example.com/i.jxl" "http://example.com/i.jxl" rfl,
    C9_fingerprint_pure.2 "http://example.com/i.jxl" "scraped_images"
      ⟨.ok ⟨200, "image/jxl", [255, 10]⟩, .ok ⟨200, "image/jxl", [255, 10]⟩,
        .error "not xml", .ok 1 1, .unidentified⟩ 50000
      (osJoin "scraped_images" (md5_hash "http://example.com/i.jxl" ++ ".jxl"))
      (.bytes [255, 10]) (by decide)⟩

/-! ## Claim C10: src is preferred over data-src -/

/-- C10: when an extracted image element carries both a `src` and a
`data-src` value, the nonempty `src` is used to form the candidate URL
and `data-src` is ignored (the contributed candidates are the same as if
`data-src` were absent); `data-src` is consulted exactly when `src` is
absent (None) or empty; an element with neither (both absent or empty)
yields no candidate URL. -/
theorem C10_src_over_datasrc (pageUrl : String) (join : String → String → String)
    (s : String) (d : Option String) (hs : s ≠ "") :
    selectSrc ⟨some s, d⟩ = some s ∧
      entryUrls pageUrl join ⟨some s, d⟩ = entryUrls pageUrl join ⟨some s, none⟩ ∧
      (∀ dd : Option String, selectSrc ⟨none, dd⟩ = dd) ∧
      selectSrc ⟨some "", d⟩ = d ∧
      entryUrls pageUrl join ⟨none, none⟩ = [] ∧
      entryUrls pageUrl join ⟨some "", none⟩ = [] ∧
      entryUrls pageUrl join ⟨none, some ""⟩ = [] ∧
      entryUrls pageUrl join ⟨some "", some ""⟩ = [] := by
  refine ⟨?_, ?_, ?_, ?_, ?_, ?_, ?_, ?_⟩ <;>
    simp [selectSrc, pyOr, pyTruthy, entryUrls, hs]

/-- C10 witness: instantiated at a concrete element carrying both
attributes. -/
theorem C10_src_over_datasrc_witness :
    selectSrc ⟨some "http://example.com/a.png", some "http://example.com/b.png"⟩ =
        some "http://example.com/a.png" ∧
      entryUrls "http://example.com" (fun _ v => v)
          ⟨some "http://example.com/a.png", some "http://example.com/b.png"⟩ =
        entryUrls "http://example.com" (fun _ v => v)
          ⟨some "http://example.com/a.png", none⟩ ∧
      (∀ dd : Option String, selectSrc ⟨none, dd⟩ = dd) ∧
      selectSrc ⟨some "", some "http://example.com/b.png"⟩ =
        some "http://example.com/b.png" ∧
      entryUrls "http://example.com" (fun _ v => v) ⟨none, none⟩ = [] ∧
      entryUrls "http://example.com" (fun _ v => v) ⟨some "", none⟩ = [] ∧
      entryUrls "http://example.com" (fun _ v => v) ⟨none, some ""⟩ = [] ∧
      entryUrls "http://example.com" (fun _ v => v) ⟨some "", some ""⟩ = [] :=
  C10_src_over_datasrc "http://example.com" (fun _ v => v) "http://example.com/a.png"
    (some "http://example.com/b.png") (by decide)
